import Mathlib

/-!
# Verification of the LinkedIn content-scraper repository

Shallow embedding of the repository's pure logic in Lean 4, together with
theorems settling the frozen claims about it.

Conventions of the embedding:
* JavaScript numbers are modelled as rationals (`ℚ`) where fractional
  arithmetic occurs, and as `ℕ`/`ℤ` where the code only manipulates
  integers; overflow and float rounding are outside the model.
* `Math.random()`-derived quantities (jitter) are passed as explicit
  parameters so that the functions stay deterministic.
* DOM access and I/O are modelled by passing the already-resolved values
  (the text a selector chain resolved to, the outcome of a navigation)
  as explicit inputs.
-/

/-! ## Rate limiter (`src/utils/rate-limiter.js`)

State of the `RateLimiter` class.  `windowStart`/`requestsInWindow` are not
modelled because no claim touches the windowing branch of `delay()`.
-/

structure RLState where
  baseDelay : ℚ
  maxDelay : ℚ
  currentDelay : ℚ
  requestCount : ℕ
  successRate : ℚ
deriving DecidableEq, Repr

namespace RLState

/-- Constructor of `RateLimiter` with explicit `baseDelay`/`maxDelay`
options (`this.currentDelay = this.baseDelay`, `this.requestCount = 0`,
`this.successRate = 1.0`). -/
def mkRL (base maxD : ℚ) : RLState :=
  { baseDelay := base
    maxDelay := maxD
    currentDelay := base
    requestCount := 0
    successRate := 1 }

/-- Model of `RateLimiter.calculateAdaptiveDelay`, with the `Math.random() * 1000`
jitter passed explicitly.  Mirrors the source:
`delay = currentDelay * (2 - successRate)`; then
`if (requestCount > 50) delay *= 1.5; else if (requestCount > 100) delay *= 2;`
then `delay += jitter`; then
`Math.min(Math.max(delay, baseDelay), maxDelay)`. -/
def calculateAdaptiveDelay (s : RLState) (jitter : ℚ) : ℚ :=
  let d1 := s.currentDelay * (2 - s.successRate)
  let d2 := if s.requestCount > 50 then d1 * (3/2)
            else if s.requestCount > 100 then d1 * 2
            else d1
  let d3 := d2 + jitter
  min (max d3 s.baseDelay) s.maxDelay

/-- Model of `RateLimiter.recordSuccess`:
`successRate = Math.min(1.0, successRate + 0.05)`;
`currentDelay = Math.max(baseDelay, currentDelay * 0.95)`. -/
def recordSuccess (s : RLState) : RLState :=
  { s with
    successRate := min 1 (s.successRate + 1/20)
    currentDelay := max s.baseDelay (s.currentDelay * (19/20)) }

/-- Model of `RateLimiter.recordFailure(isBlocked)`:
`penaltyFactor = isBlocked ? 0.3 : 0.1`;
`successRate = Math.max(0.1, successRate - penaltyFactor)`;
`currentDelay = Math.min(maxDelay, currentDelay * 1.5)`. -/
def recordFailure (s : RLState) (isBlocked : Bool) : RLState :=
  let penaltyFactor : ℚ := if isBlocked then 3/10 else 1/10
  { s with
    successRate := max (1/10) (s.successRate - penaltyFactor)
    currentDelay := min s.maxDelay (s.currentDelay * (3/2)) }

end RLState

/-- One recorded outcome fed to the rate limiter. -/
inductive RLEvent where
  | success : RLEvent
  | failure (isBlocked : Bool) : RLEvent
deriving DecidableEq, Repr

/-- Apply one `recordSuccess`/`recordFailure` call. -/
def applyRLEvent (s : RLState) : RLEvent → RLState
  | .success => s.recordSuccess
  | .failure b => s.recordFailure b

/-- Apply a finite sequence of record calls, in order. -/
def runRLEvents (s : RLState) (evts : List RLEvent) : RLState :=
  evts.foldl applyRLEvent s

/-- The invariant claimed for the rate limiter:
`baseDelay ≤ currentDelay ≤ maxDelay` and `successRate ∈ [0.1, 1.0]`. -/
def RLInv (s : RLState) : Prop :=
  s.baseDelay ≤ s.currentDelay ∧ s.currentDelay ≤ s.maxDelay ∧
    1/10 ≤ s.successRate ∧ s.successRate ≤ 1

instance (s : RLState) : Decidable (RLInv s) := by
  unfold RLInv; infer_instance

/-- The adaptive-delay formula exactly as the claim words it:
`clamp(baseDelay × (2 − successRate) × loadFactor + jitter, baseDelay,
maxDelay)` with `loadFactor = 2` past 100 requests and `1.5` past 50. -/
def claimedAdaptiveDelay (s : RLState) (jitter : ℚ) : ℚ :=
  let loadFactor : ℚ :=
    if s.requestCount > 100 then 2 else if s.requestCount > 50 then 3/2 else 1
  min (max (s.baseDelay * (2 - s.successRate) * loadFactor + jitter) s.baseDelay)
    s.maxDelay

/-! Basic preservation lemmas for the rate-limiter invariant. -/

theorem applyRLEvent_base (s : RLState) (e : RLEvent) :
    (applyRLEvent s e).baseDelay = s.baseDelay := by
  cases e <;> rfl

theorem applyRLEvent_max (s : RLState) (e : RLEvent) :
    (applyRLEvent s e).maxDelay = s.maxDelay := by
  cases e <;> rfl

theorem applyRLEvent_inv {s : RLState} (hbase : 0 ≤ s.baseDelay)
    (hbm : s.baseDelay ≤ s.maxDelay) (h : RLInv s) (e : RLEvent) :
    RLInv (applyRLEvent s e) := by
  obtain ⟨h1, h2, h3, h4⟩ := h
  have hcd : 0 ≤ s.currentDelay := le_trans hbase h1
  cases e with
  | success =>
      refine ⟨le_max_left _ _, max_le hbm ?_, ?_, min_le_left _ _⟩
      · calc s.currentDelay * (19/20) ≤ s.currentDelay := by nlinarith
          _ ≤ s.maxDelay := h2
      · exact le_min (by norm_num) (by linarith)
  | failure b =>
      refine ⟨?_, min_le_left _ _, le_max_left _ _, ?_⟩
      · refine le_min hbm ?_
        calc s.baseDelay ≤ s.currentDelay := h1
          _ ≤ s.currentDelay * (3/2) := by nlinarith
      · have : s.successRate - (if b then (3:ℚ)/10 else 1/10) ≤ 1 := by
          cases b <;> simp <;> linarith
        exact max_le (by norm_num) this

theorem runRLEvents_inv {s : RLState} (hbase : 0 ≤ s.baseDelay)
    (hbm : s.baseDelay ≤ s.maxDelay) (h : RLInv s) (evts : List RLEvent) :
    RLInv (runRLEvents s evts) := by
  induction evts generalizing s with
  | nil => exact h
  | cons e rest ih =>
      have hb' : 0 ≤ (applyRLEvent s e).baseDelay := by
        rw [applyRLEvent_base]; exact hbase
      have hbm' : (applyRLEvent s e).baseDelay ≤ (applyRLEvent s e).maxDelay := by
        rw [applyRLEvent_base, applyRLEvent_max]; exact hbm
      exact ih hb' hbm' (applyRLEvent_inv hbase hbm h e)

/-! ## Content extraction (`src/core/content-extractor.js`)

Character classes and token scanning used by the in-page extraction
closures.  JavaScript `\w` is `[A-Za-z0-9_]` (ASCII); `\s` is modelled by
the ASCII whitespace characters. -/

/-- JS `\w` character class. -/
def isWordChar (c : Char) : Bool :=
  c.isAlpha || c.isDigit || c = '_'

/-- Character class `[\w-]` of the hashtag/mention regexes. -/
def isTagChar (c : Char) : Bool :=
  isWordChar c || c = '-'

/-- Whitespace as matched by `\s` (ASCII subset). -/
def isWsChar (c : Char) : Bool :=
  c = ' ' || c = '\t' || c = '\n' || c = '\r' || c = '\x0b' || c = '\x0c'

/-- Whether `pat` is a prefix of `l` (helper for the JS string methods below). -/
def leadsWith : List Char → List Char → Bool
  | [], _ => true
  | _ :: _, [] => false
  | p :: ps, c :: cs => p = c && leadsWith ps cs

/-- Whether `pat` occurs as a contiguous sublist of `l`. -/
def hasSub (pat : List Char) : List Char → Bool
  | [] => pat.isEmpty
  | c :: cs => leadsWith pat (c :: cs) || hasSub pat cs

/-- JS `s.includes(pat)`. -/
def strIncludes (s pat : String) : Bool := hasSub pat.toList s.toList

/-- JS `s.startsWith(pat)`. -/
def jsStartsWith (s pat : String) : Bool := leadsWith pat.toList s.toList

/-- Consume `pat` from the front of `l`; `none` if it does not lead. -/
def dropLead : List Char → List Char → Option (List Char)
  | [], l => some l
  | _ :: _, [] => none
  | p :: ps, c :: cs => if p = c then dropLead ps cs else none

/-- Fuel-bounded splitting on a non-empty separator (JS
`String.prototype.split` with a string argument); `acc` is the current
piece, reversed.  Every step consumes at least one character, so fuel
`l.length` (supplied by `jsSplit`) never runs out. -/
def jsSplitGo (sep : List Char) : ℕ → List Char → List Char → List (List Char)
  | 0, acc, l => [acc.reverse ++ l]
  | fuel + 1, acc, l =>
    match l with
    | [] => [acc.reverse]
    | c :: cs =>
      match dropLead sep l with
      | some rest => acc.reverse :: jsSplitGo sep fuel [] rest
      | none => jsSplitGo sep fuel (c :: acc) cs

/-- JS `s.split(sep)` for a non-empty string separator. -/
def jsSplit (s sep : String) : List String :=
  (jsSplitGo sep.toList s.toList.length [] s.toList).map List.asString

/-- Fuel-bounded scan step for the regex `#[\w-]+` (respectively
`@[\w-]+`) with the `g` flag: at each position, if the marker is found and
followed by at least one `[\w-]` character, emit the maximal such run and
continue after it; otherwise advance one character.  Every step consumes
at least one character, so fuel `l.length` (supplied by `scanMarked`)
never runs out; the fuel only makes the recursion structural. -/
def scanMarkedGo (marker : Char) : ℕ → List Char → List (List Char)
  | 0, _ => []
  | _, [] => []
  | fuel + 1, c :: rest =>
    if c = marker then
      let tok := rest.takeWhile isTagChar
      if tok.isEmpty then scanMarkedGo marker fuel rest
      else tok :: scanMarkedGo marker fuel (rest.drop tok.length)
    else scanMarkedGo marker fuel rest

/-- All matches of `#[\w-]+` (respectively `@[\w-]+`) in the list, in
order. -/
def scanMarked (marker : Char) (l : List Char) : List (List Char) :=
  scanMarkedGo marker l.length l

/-- Model of `extractHashtags`: all `#[\w-]+` matches with the leading `#` stripped
(`tag.substring(1)`), in occurrence order, duplicates retained. -/
def extractHashtags (text : String) : List String :=
  (scanMarked '#' text.toList).map List.asString

/-- Model of `extractMentions`: all `@[\w-]+` matches with the leading `@`
stripped, in occurrence order, duplicates retained. -/
def extractMentions (text : String) : List String :=
  (scanMarked '@' text.toList).map List.asString

/-- First-occurrence deduplication, as the claim describes
("deduplicated-by-occurrence").  Spec-side definition, for comparison. -/
def dedupByOccurrence (l : List String) : List String :=
  l.foldl (fun acc x => if acc.contains x then acc else acc ++ [x]) []

/-! ### `cleanText` -/

/-- Replace every maximal run of characters satisfying `p` by a single
space; the flag records whether the previous character was in the run
(so only the first character of a run emits the space). -/
def collapseRuns (p : Char → Bool) : Bool → List Char → List Char
  | _, [] => []
  | inRun, c :: rest =>
    if p c then
      if inRun then collapseRuns p true rest
      else ' ' :: collapseRuns p true rest
    else c :: collapseRuns p false rest

/-- The `/\s+/g → ' '` step of `cleanText`. -/
def collapseWs (l : List Char) : List Char := collapseRuns isWsChar false l

/-- The `/[\r\n]+/g → ' '` step of `cleanText`. -/
def collapseCrLf (l : List Char) : List Char :=
  collapseRuns (fun d => d = '\r' || d = '\n') false l

/-- The mojibake ellipsis removed by the `/â€¦$/` step. -/
def mojibakeEllipsis : List Char := ['â', '€', '¦']

/-- Drop one trailing occurrence of the mojibake ellipsis, if present. -/
def dropTrailingEllipsis (l : List Char) : List Char :=
  if mojibakeEllipsis.isSuffixOf l then l.take (l.length - 3) else l

/-- JS `String.prototype.trim` (whitespace from both ends). -/
def jsTrim (l : List Char) : List Char :=
  ((l.dropWhile isWsChar).reverse.dropWhile isWsChar).reverse

/-- Model of `ContentExtractor.cleanText`: empty-ish input maps to `''`; otherwise
whitespace collapse, CR/LF collapse, trailing mojibake-ellipsis removal,
then trim. -/
def cleanText (text : String) : String :=
  if text = "" then ""
  else (jsTrim (dropTrailingEllipsis (collapseCrLf (collapseWs text.toList)))).asString

/-! ### Numeric parsing (`getNumberBySelectors`) -/

/-- Decimal value of a digit list. -/
def natOfDigits (ds : List Char) : ℕ :=
  ds.foldl (fun n c => 10 * n + (c.toNat - 48)) 0

/-- After an initial digit run, collect the remaining `(?:,\d+)*` comma
groups of the regex `(\d+(?:,\d+)*)`, returning all digits with the
commas removed.  Fuel-bounded (every group consumes at least two
characters, so fuel `l.length` never runs out). -/
def commaGroupsGo : ℕ → List Char → List Char
  | 0, _ => []
  | fuel + 1, l =>
    match l with
    | ',' :: c :: rest =>
      if c.isDigit then
        (c :: rest.takeWhile Char.isDigit)
          ++ commaGroupsGo fuel (rest.dropWhile Char.isDigit)
      else []
    | _ => []

/-- The `(?:,\d+)*` comma groups following an initial digit run. -/
def commaGroups (l : List Char) : List Char := commaGroupsGo l.length l

/-- First match of `(\d+(?:,\d+)*)` in the text, as the digit list with
commas stripped; `none` when the text has no digit. -/
def firstDigitGroup : List Char → Option (List Char)
  | [] => none
  | c :: rest =>
    if c.isDigit then
      let run := c :: rest.takeWhile Char.isDigit
      some (run ++ commaGroups (rest.dropWhile Char.isDigit))
    else firstDigitGroup rest

/-- Model of `getNumberBySelectors` at the profile level: the resolved text of the
first matching selector (`none` when every selector failed, in which case
`getTextBySelectors` returned `''`); then
`text.match(/(\d+(?:,\d+)*)/)` and `parseInt(match[1].replace(/,/g, ''))`,
defaulting to `0` when there is no match. -/
def getNumberBySelectors (resolved : Option String) : ℕ :=
  let text := resolved.getD ""
  match firstDigitGroup text.toList with
  | some ds => natOfDigits ds
  | none => 0

/-- Model of `getTextBySelectors`: the resolved trimmed text, or `''` when every
selector failed. -/
def getTextBySelectors (resolved : Option String) : String :=
  resolved.getD ""

/-- The numeric-field parse as the claim words it: leading digit group
multiplied by 1,000 on a trailing `k` and by 1,000,000 on a trailing `m`.
Spec-side definition, for comparison. -/
def claimedNumericParse (text : String) : ℕ :=
  let ds := text.toList.dropWhile (fun c => ¬ c.isDigit)
  let run := ds.takeWhile Char.isDigit
  let base := natOfDigits run
  match ds.dropWhile Char.isDigit with
  | 'k' :: _ => base * 1000
  | 'm' :: _ => base * 1000000
  | _ => base

/-! ### Post data model and post-processing -/

/-- One media entry of a post (`{type, url, filename}`). -/
structure MediaFile where
  type : String
  url : String
  filename : String
deriving DecidableEq, Repr

/-- The `engagement` sub-object of a post. -/
structure Engagement where
  rate : ℚ
  score : ℚ
deriving DecidableEq, Repr

/-- A `postData` record as assembled inside `extractPosts`; defaults model
the freshly-built record (`engagement: {rate: 0, score: 0}`). -/
structure Post where
  id : String := ""
  type : String := "post"
  url : String := ""
  caption : String := ""
  reactions : ℚ := 0
  comments : ℚ := 0
  shares : ℚ := 0
  publishDate : String := ""
  authorName : String := ""
  authorTitle : String := ""
  mediaFiles : List MediaFile := []
  hashtags : List String := []
  mentions : List String := []
  engagement : Engagement := ⟨0, 0⟩
deriving DecidableEq, Repr

/-- JS `Math.round` (round half towards positive infinity). -/
def jsRound (q : ℚ) : ℤ := ⌊q + 1/2⌋

/-- The rounding `Math.round(x * 100) / 100`, the two-decimal rounding used for the
engagement rate. -/
def round2 (q : ℚ) : ℚ := (jsRound (q * 100) : ℚ) / 100

/-- One post of `ContentExtractor.postProcessPosts`: engagement rate and
score, caption cleaning, date formatting (the bound `this.formatDate` is
passed as `fd`, see `formatDate` below for its relative-date semantics),
and removal of media entries whose URL does not start with `http`. -/
def postProcessPost (fd : String → String) (p : Post) : Post :=
  let totalEngagement := p.reactions + p.comments + p.shares
  { p with
    engagement :=
      { rate := if totalEngagement > 0 then
            round2 (totalEngagement / max p.reactions 1)
          else 0
        score := p.reactions * 1 + p.comments * 3 + p.shares * 5 }
    caption := cleanText p.caption
    publishDate := fd p.publishDate
    mediaFiles := p.mediaFiles.filter (fun m => jsStartsWith m.url "http") }

/-- Model of `ContentExtractor.postProcessPosts`. -/
def postProcessPosts (fd : String → String) (posts : List Post) : List Post :=
  posts.map (postProcessPost fd)

/-- The keep condition of the extraction loop:
`if (postData.caption || postData.mediaFiles.length > 0) posts.push(...)`. -/
def keepPost (p : Post) : Bool :=
  !(p.caption == "") || !(p.mediaFiles.isEmpty)

/-- The enumeration loop of `extractPosts` over the assembled `postData`
records: `for (i = 0; i < n && (limit === null || posts.length < limit); i++)`,
pushing the records that pass `keepPost`.  `limit` here is the number of
slots still free. -/
def extractLoop : Option ℕ → List Post → List Post
  | _, [] => []
  | limit, e :: rest =>
    if limit = some 0 then []
    else if keepPost e then e :: extractLoop (limit.map (· - 1)) rest
    else extractLoop limit rest

/-- Model of `ContentExtractor.extractPosts` over the list of assembled `postData`
records of the DOM snapshot: the keep/limit loop followed by
`postProcessPosts`. -/
def extractPosts (fd : String → String) (elems : List Post)
    (limit : Option ℕ) : List Post :=
  postProcessPosts fd (extractLoop limit elems)

/-- JS `a || b` on an optional number (`null`, `0` and `NaN` are falsy). -/
def jsOrNat (o : Option ℕ) (d : ℕ) : ℕ :=
  match o with
  | none => d
  | some 0 => d
  | some (k + 1) => k + 1

/-- The post limit of `alternativeScrapingApproach`:
`Math.min(this.options.maxPosts || 10, 10)`. -/
def altApproachLimit (maxPosts : Option ℕ) : ℕ :=
  min (jsOrNat maxPosts 10) 10

/-! ### Profile metadata extraction -/

/-- What each selector chain of `extractProfileMetadata` resolved to on the
page: `none` when every selector of the chain failed, otherwise the
trimmed text content of the first match. -/
structure ResolvedProfile where
  name : Option String := none
  headline : Option String := none
  followers : Option String := none
  connections : Option String := none
  location : Option String := none
  industry : Option String := none
deriving DecidableEq, Repr

/-- The `ProfileMetadata` record; covers the fields produced by the primary
extractor, the JigsawStack fallback bookkeeping and
`createMinimalProfileData` (JS objects are dynamic, so unused fields keep
their defaults). -/
structure ProfileMetadata where
  url : String := ""
  name : String := ""
  headline : String := ""
  followers : ℕ := 0
  connections : ℕ := 0
  location : String := ""
  industry : String := ""
  scrapedAt : String := ""
  scrapedVia : String := ""
  username : String := ""
  errorMsg : String := ""
  fallbackUsed : Bool := false
  dataLimited : Bool := false
  originalMethod : String := ""
deriving DecidableEq, Repr

/-- Model of `ContentExtractor.extractProfileMetadata` (the `page.evaluate` body),
over the resolved selector texts; every field is total — an unresolved
chain contributes its zero-value. -/
def extractProfileMetadata (r : ResolvedProfile) (url scrapedAt : String) :
    ProfileMetadata :=
  { url := url
    name := getTextBySelectors r.name
    headline := getTextBySelectors r.headline
    followers := getNumberBySelectors r.followers
    connections := getNumberBySelectors r.connections
    location := getTextBySelectors r.location
    industry := getTextBySelectors r.industry
    scrapedAt := scrapedAt }

/-! ### Date resolution (`ContentExtractor.formatDate`)

A JS `Date` is its millisecond timestamp; `setHours`/`setDate`/`setMonth`
replace one calendar field (out-of-range values allowed) and renormalize.
We model a concrete date by its broken-down fields (UTC; the embedding
ignores timezones) and compute the timestamp with the standard proleptic
Gregorian civil-from-days algorithm, which is exactly the renormalization
JS performs. -/

structure JSDate where
  year : ℤ
  month : ℤ
  day : ℤ
  hour : ℤ
  minute : ℤ
  second : ℤ
  ms : ℤ
deriving DecidableEq, Repr

/-- Day number of the proleptic Gregorian date `(y, m ∈ 1..12, d)`
relative to 1970-01-01. -/
def daysFromCivil (y m d : ℤ) : ℤ :=
  let y2 := if m ≤ 2 then y - 1 else y
  let era := y2.fdiv 400
  let yoe := y2 - era * 400
  let mAdj := if m > 2 then m - 3 else m + 9
  let doy := (153 * mAdj + 2).fdiv 5 + d - 1
  let doe := yoe * 365 + yoe.fdiv 4 - yoe.fdiv 100 + doy
  era * 146097 + doe - 719468

/-- Total month index of a date: `12 × year + month` (JS months are
0-based, so out-of-range `month` values renormalize through this index). -/
def monthIndex (dt : JSDate) : ℤ := 12 * dt.year + dt.month

/-- Millisecond timestamp of a (possibly denormalized) broken-down date,
with the JS `Date` normalization rules: `month` folds into the year via
the month index, and `day`/`hour`/`minute`/`second`/`ms` contribute
linearly. -/
def toMillis (dt : JSDate) : ℤ :=
  (daysFromCivil ((monthIndex dt).fdiv 12) ((monthIndex dt).emod 12 + 1) 1
      + (dt.day - 1)) * 86400000
    + dt.hour * 3600000 + dt.minute * 60000 + dt.second * 1000 + dt.ms

/-- First match of the unanchored regex `(\d+)([hdwm])` in the character
list: the digit group and the unit character.  (Backtracking inside the
greedy `\d+` can never produce a match that this left-to-right maximal
scan misses, because a digit is never a unit character.) -/
def relMatchGo : ℕ → List Char → Option (ℕ × Char)
  | 0, _ => none
  | fuel + 1, l =>
    match l with
    | [] => none
    | c :: rest =>
      if c.isDigit then
        let run := c :: rest.takeWhile Char.isDigit
        match rest.dropWhile Char.isDigit with
        | u :: _ =>
          if u = 'h' || u = 'd' || u = 'w' || u = 'm' then
            some (natOfDigits run, u)
          else relMatchGo fuel (rest.dropWhile Char.isDigit)
        | [] => none
      else relMatchGo fuel rest

/-- First `(\d+)([hdwm])` match of the list (fuel-bounded scan; every step
consumes at least one character, so fuel `l.length` never runs out). -/
def relMatch (l : List Char) : Option (ℕ × Char) :=
  relMatchGo l.length l

/-- The `switch (unit)` of `formatDate`: subtract `value` hours, days,
weeks (via `setDate(getDate() - value * 7)`) or months (via
`setMonth(getMonth() - value)`); any other unit leaves the date unchanged
(no `default` case). -/
def applyRelUnit (now : JSDate) (n : ℕ) (u : Char) : ℤ :=
  if u = 'h' then toMillis { now with hour := now.hour - n }
  else if u = 'd' then toMillis { now with day := now.day - n }
  else if u = 'w' then toMillis { now with day := now.day - 7 * n }
  else if u = 'm' then toMillis { now with month := now.month - n }
  else toMillis now

/-- Model of `ContentExtractor.formatDate`, restricted to the relative-label branch
and expressed as the instant (ms since epoch) of the `Date` whose
`toISOString()` the code returns.  `none` covers the branches no claim is
about: the empty string (returns `''`), strings containing `T` (ISO
reparse), and strings with no `(\d+)([hdwm])` match (generic date parse or
the original string). -/
def formatDateInstant (now : JSDate) (s : String) : Option ℤ :=
  if s = "" then none
  else if s.toList.contains 'T' then none
  else
    match relMatch s.toList with
    | some (n, u) => some (applyRelUnit now n u)
    | none => none

/-! ## Retry wrapper (`LinkedInScraper.retry`)

`for (attempt = 1; attempt <= retries; attempt++) { try return op(); catch
{ if (attempt === retries) throw; await sleep(2^attempt * 1000);
rateLimiter.recordFailure(); } }`.  The outcome of attempt number `k` is
`op k`; the trace records the result, the backoff waits performed, how
many failures were reported to the rate limiter, and how many attempts
ran. -/

structure RetryTrace (ε α : Type) where
  result : Except ε α
  delays : List ℕ
  failuresReported : ℕ
  attemptsMade : ℕ
deriving Repr

/-- The retry loop from attempt number `attempt` with `remaining` further
attempts allowed after the current one (`remaining = 0` means this is the
final attempt: its error is thrown without a backoff wait or a failure
report). -/
def retryGo {ε α : Type} (op : ℕ → Except ε α) (attempt : ℕ) :
    ℕ → RetryTrace ε α
  | 0 =>
    match op attempt with
    | .ok a => ⟨.ok a, [], 0, 1⟩
    | .error e => ⟨.error e, [], 0, 1⟩
  | remaining + 1 =>
    match op attempt with
    | .ok a => ⟨.ok a, [], 0, 1⟩
    | .error _ =>
      let rest := retryGo op (attempt + 1) remaining
      ⟨rest.result, 2 ^ attempt * 1000 :: rest.delays,
        rest.failuresReported + 1, rest.attemptsMade + 1⟩

/-- Model of `LinkedInScraper.retry` with a retry budget of `retries ≥ 1` attempts
(the loop runs attempts `1 .. retries`). -/
def retryRun {ε α : Type} (op : ℕ → Except ε α) (retries : ℕ) :
    RetryTrace ε α :=
  retryGo op 1 (retries - 1)

/-! ## Scrape orchestration (`LinkedInScraper.scrapeProfile`) -/

/-- Character class `[a-zA-Z0-9-]` of the profile-URL slug. -/
def isSlugChar (c : Char) : Bool := c.isAlpha || c.isDigit || c = '-'

/-- Model of `LinkedInScraper.isValidLinkedInProfileUrl`:
`/^https?:\/\/(?:www\.)?linkedin\.com\/in\/[a-zA-Z0-9-]+\/?$/`. -/
def isValidLinkedInProfileUrl (url : String) : Bool :=
  match dropLead "http".toList url.toList with
  | none => false
  | some l1 =>
    let l2 := match l1 with
      | 's' :: t => t
      | _ => l1
    match dropLead "://".toList l2 with
    | none => false
    | some l3 =>
      let l4 := match dropLead "www.".toList l3 with
        | some r => r
        | none => l3
      match dropLead "linkedin.com/in/".toList l4 with
      | none => false
      | some l5 =>
        let slug := l5.takeWhile isSlugChar
        let rest := l5.dropWhile isSlugChar
        !slug.isEmpty && (rest.isEmpty || rest == ['/'])

/-- JS `s.replace('/', '')`: remove the first occurrence of the character,
if any. -/
def removeFirstChar (target : Char) : List Char → List Char
  | [] => []
  | c :: rest => if c = target then rest else c :: removeFirstChar target rest

/-- The username derivation `profileUrl.split('/in/')[1]?.replace('/', '') || 'unknown'` of
`createMinimalProfileData`. -/
def deriveUsername (url : String) : String :=
  match (jsSplit url "/in/").get? 1 with
  | none => "unknown"
  | some t =>
    let t2 := (removeFirstChar '/' t.toList).asString
    if t2 = "" then "unknown" else t2

/-- The name derivation of `createMinimalProfileData`: every hyphen
replaced by a space (a global regex replace), then `\b\w` uppercased —
uppercase every `\w` character at a word boundary (start of string, or
preceded by a non-`\w` character). -/
def capWordStarts : Bool → List Char → List Char
  | _, [] => []
  | prevW, c :: rest =>
    (if isWordChar c && !prevW then c.toUpper else c)
      :: capWordStarts (isWordChar c) rest

/-- Display name derived from the URL slug. -/
def displayNameFromSlug (username : String) : String :=
  (capWordStarts false
    (username.toList.map (fun c => if c = '-' then ' ' else c))).asString

/-- Model of `LinkedInScraper.createMinimalProfileData`: the `ProfileMetadata`
synthesized purely from the URL (the returned post list is `[]`). -/
def createMinimalProfileData (profileUrl errorMessage scrapedAt : String) :
    ProfileMetadata :=
  let profileUsername := deriveUsername profileUrl
  { name := displayNameFromSlug profileUsername
    url := profileUrl
    username := profileUsername
    scrapedAt := scrapedAt
    scrapedVia := "minimal-fallback"
    errorMsg := errorMessage
    fallbackUsed := true
    dataLimited := true }

/-- Environment of one `scrapeProfile` call: the outcome of the primary
extraction pipeline (navigation + metadata + activity page + post
extraction, as one `Except`), the posts each alternative URL attempt
yielded (a navigation failure there is caught and contributes `[]`), the
`useFallback` flag, and the JigsawStack outcome. -/
structure ScrapeEnv where
  primary : Except String (List Post × ProfileMetadata)
  altResults : List (List Post)
  useFallback : Bool
  jigsaw : Except String (List Post × ProfileMetadata)

/-- Result of `scrapeProfile`: the returned-or-thrown value, and the value
of `this.profileMetadata` on exit when the modelled path assigned it
(`none` = left as whatever an earlier stage wrote). -/
structure ScrapeOutcome where
  result : Except String (List Post)
  finalMeta : Option ProfileMetadata
deriving Repr

/-- The alternative-URL loop: first alternative yielding any post wins;
when all fail or yield zero posts the outer catch returns `[]`. -/
def firstNonEmptyPosts : List (List Post) → List Post
  | [] => []
  | l :: rest => if l.isEmpty then firstNonEmptyPosts rest else l

/-- Model of `LinkedInScraper.alternativeScrapingApproach` (never throws). -/
def alternativeScrapingApproach (env : ScrapeEnv) : List Post :=
  firstNonEmptyPosts env.altResults

/-- The catch-branch guard of `scrapeProfile`:
`error.message.includes('blocked') || includes('999') || includes('timeout')`. -/
def isBlockedSignal (msg : String) : Bool :=
  strIncludes msg "blocked" || strIncludes msg "999" || strIncludes msg "timeout"

/-- Model of `LinkedInScraper.tryJigsawStackFallback`: on success, adopt the
fallback metadata tagged `jigsawstack-fallback`; on any failure, degrade
to `createMinimalProfileData` (never throws). -/
def tryJigsawStackFallback (env : ScrapeEnv) (url scrapedAt : String) :
    List Post × ProfileMetadata :=
  match env.jigsaw with
  | .ok (posts, meta) =>
      (posts, { meta with
                  scrapedVia := "jigsawstack-fallback"
                  fallbackUsed := true
                  originalMethod := "puppeteer-failed" })
  | .error e => ([], createMinimalProfileData url e scrapedAt)

/-- Model of `LinkedInScraper.scrapeProfile` control flow (browser assumed
initialized): URL validation, primary pipeline, then on a
blocked/999/timeout signal the alternative URLs, then the JigsawStack
fallback when `useFallback` is set, else the error is rethrown. -/
def scrapeProfile (env : ScrapeEnv) (url scrapedAt : String) : ScrapeOutcome :=
  if !isValidLinkedInProfileUrl url then
    { result := .error "Invalid LinkedIn profile URL provided", finalMeta := none }
  else
    match env.primary with
    | .ok (posts, meta) => { result := .ok posts, finalMeta := some meta }
    | .error msg =>
      if isBlockedSignal msg then
        let altPosts := alternativeScrapingApproach env
        if !altPosts.isEmpty then { result := .ok altPosts, finalMeta := none }
        else if env.useFallback then
          let fb := tryJigsawStackFallback env url scrapedAt
          { result := .ok fb.1, finalMeta := some fb.2 }
        else { result := .error msg, finalMeta := none }
      else { result := .error msg, finalMeta := none }

/-! ## Claims -/

/-- Counterexample to claim C2: the code computes the adaptive delay from
`currentDelay`, not `baseDelay`, and the `requestCount > 100` double-factor
branch is shadowed by the `> 50` branch; at the states below the claimed
formula and the code disagree (4000 vs 2000, and 3000 vs 4000). -/
theorem c2_adaptive_delay_counterexample :
    RLState.calculateAdaptiveDelay ⟨2000, 1000000, 4000, 0, 1⟩ 0 = 4000 ∧
    claimedAdaptiveDelay ⟨2000, 1000000, 4000, 0, 1⟩ 0 = 2000 ∧
    RLState.calculateAdaptiveDelay ⟨2000, 1000000, 2000, 101, 1⟩ 0 = 3000 ∧
    claimedAdaptiveDelay ⟨2000, 1000000, 2000, 101, 1⟩ 0 = 4000 := by
  refine ⟨?_, ?_, ?_, ?_⟩ <;>
    norm_num [RLState.calculateAdaptiveDelay, claimedAdaptiveDelay]

/-- Claim C2 (amended): the adaptive delay equals
`clamp(currentDelay × (2 − successRate) × loadFactor + jitter, baseDelay,
maxDelay)` where `loadFactor` is `1.5` once the request count exceeds 50
and `1` otherwise — the `×2` escalation past 100 requests is unreachable
because the `> 100` test sits in the `else` branch of the `> 50` test. -/
theorem c2_adaptive_delay_formula (s : RLState) (jitter : ℚ) :
    RLState.calculateAdaptiveDelay s jitter =
      min (max (s.currentDelay * (2 - s.successRate) *
          (if 50 < s.requestCount then 3/2 else 1) + jitter) s.baseDelay)
        s.maxDelay := by
  by_cases h : 50 < s.requestCount
  · simp only [RLState.calculateAdaptiveDelay, if_pos h]
  · have h2 : ¬ (100 < s.requestCount) := fun hc => h (by omega)
    simp only [RLState.calculateAdaptiveDelay, if_neg h, if_neg h2]
    ring_nf

/-- Counterexample to claim C3: with `baseDelay = -10 ≤ maxDelay = -9`
(the claim assumes only `baseDelay ≤ maxDelay`), three `recordSuccess`
calls drive `currentDelay` to `-8.57375 > maxDelay`, so the claimed
invariant fails. -/
theorem c3_invariant_counterexample :
    (RLState.mkRL (-10) (-9)).baseDelay ≤ (RLState.mkRL (-10) (-9)).maxDelay ∧
    ¬ RLInv (runRLEvents (RLState.mkRL (-10) (-9))
        [RLEvent.success, RLEvent.success, RLEvent.success]) := by
  constructor
  · norm_num [RLState.mkRL]
  · intro h
    have h2 := h.2.1
    norm_num [runRLEvents, RLState.mkRL, applyRLEvent, RLState.recordSuccess,
      List.foldl] at h2

/-- Claim C3 (amended): for every initial rate-limiter state with
`0 ≤ baseDelay ≤ maxDelay` and every finite sequence of `recordSuccess` /
`recordFailure` calls, `currentDelay` stays within
`[baseDelay, maxDelay]` and `successRate` stays within `[0.1, 1.0]`
after each call. -/
theorem c3_rate_limiter_invariant (base maxD : ℚ) (h0 : 0 ≤ base)
    (hbm : base ≤ maxD) (evts : List RLEvent) :
    RLInv (runRLEvents (RLState.mkRL base maxD) evts) := by
  refine runRLEvents_inv h0 hbm ?_ evts
  exact ⟨le_refl _, hbm, by norm_num [RLState.mkRL], le_refl _⟩

/-- Witness for `c3_rate_limiter_invariant` at a concrete configuration
and call sequence. -/
theorem c3_rate_limiter_invariant_witness :
    RLInv (runRLEvents (RLState.mkRL 2000 10000)
      [RLEvent.failure true, RLEvent.success, RLEvent.failure false]) :=
  c3_rate_limiter_invariant 2000 10000 (by norm_num) (by norm_num) _

/-- Claim C4: after post-processing,
`engagement.score = reactions×1 + comments×3 + shares×5` (non-negative
when the counts are), and `engagement.rate` is
`round2(total / max(reactions, 1))` when the total engagement is positive
and `0` otherwise. -/
theorem c4_engagement_score_rate (fd : String → String) (p : Post) :
    (postProcessPost fd p).engagement.score =
      p.reactions * 1 + p.comments * 3 + p.shares * 5 ∧
    (0 ≤ p.reactions → 0 ≤ p.comments → 0 ≤ p.shares →
      0 ≤ (postProcessPost fd p).engagement.score) ∧
    (postProcessPost fd p).engagement.rate =
      (if 0 < p.reactions + p.comments + p.shares then
        round2 ((p.reactions + p.comments + p.shares) / max p.reactions 1)
      else 0) := by
  refine ⟨rfl, ?_, ?_⟩
  · intro hr hc hs
    simp only [postProcessPost]
    nlinarith
  · simp only [postProcessPost]

/-- Witness for `c4_engagement_score_rate` at a concrete post. -/
theorem c4_engagement_witness :
    0 ≤ (postProcessPost id
      { caption := "post", reactions := 150, comments := 25, shares := 12
        : Post }).engagement.score :=
  (c4_engagement_score_rate id _).2.1 (by norm_num) (by norm_num) (by norm_num)

/-- Counterexample to claim C6: the extraction does not deduplicate — the
caption `"#AI #AI"` yields `["AI", "AI"]`, not the
deduplicated-by-occurrence list `["AI"]`. -/
theorem c6_no_dedup_counterexample :
    extractHashtags "#AI #AI" = ["AI", "AI"] ∧
    extractHashtags "#AI #AI" ≠
      dedupByOccurrence ((scanMarked '#' "#AI #AI".toList).map List.asString) := by
  constructor <;> decide

/-- Claim C6 (amended): hashtags/mentions are the in-order lists of all
`#[\w-]+` / `@[\w-]+` matches with the marker stripped, duplicates
retained (no deduplication); the example caption yields `["AI"]` and
`["PartnerCo"]`, and `#2024trends` extracts as `"2024trends"`. -/
theorem c6_hashtags_mentions :
    extractHashtags "Loving the new #AI trends with @PartnerCo! 🚀" = ["AI"] ∧
    extractMentions "Loving the new #AI trends with @PartnerCo! 🚀" =
      ["PartnerCo"] ∧
    extractHashtags "#2024trends" = ["2024trends"] ∧
    extractHashtags "#AI #AI" = ["AI", "AI"] ∧
    extractMentions "hi @bob and @bob" = ["bob", "bob"] := by
  refine ⟨?_, ?_, ?_, ?_, ?_⟩ <;> decide

/-- Counterexample to claim C7: the profile-metadata number parser applies
no `k`/`m` suffix multiplier — the resolved text `"2k"` parses to `2`,
not `2000` (the claimed parse, `claimedNumericParse`, gives `2000`). -/
theorem c7_no_suffix_counterexample :
    getNumberBySelectors (some "2k") = 2 ∧
    getNumberBySelectors (some "2k") ≠ 2000 ∧
    claimedNumericParse "2k" = 2000 := by
  refine ⟨?_, ?_, ?_⟩ <;> decide

/-- Claim C7 (amended): numeric profile fields parse the first digit group
of the resolved text (comma thousands-separators included, no suffix
multipliers); a field whose selectors all fail resolves to its type's
zero-value (`0` for numbers, `""` for text), and every field is total
(never throws). -/
theorem c7_numeric_fields (r : ResolvedProfile) (url t : String)
    (hf : r.followers = none) (hc : r.connections = none)
    (hn : r.name = none) :
    (extractProfileMetadata r url t).followers = 0 ∧
    (extractProfileMetadata r url t).connections = 0 ∧
    (extractProfileMetadata r url t).name = "" ∧
    getNumberBySelectors (some "12,500 followers") = 12500 ∧
    getNumberBySelectors (some "2k followers") = 2 := by
  refine ⟨?_, ?_, ?_, by decide, by decide⟩ <;>
    simp [extractProfileMetadata, getNumberBySelectors, getTextBySelectors,
      hf, hc, hn, firstDigitGroup]

/-- Witness for `c7_numeric_fields` at the all-unresolved page. -/
theorem c7_numeric_fields_witness :
    (extractProfileMetadata {} "https://x" "t").followers = 0 :=
  (c7_numeric_fields {} "https://x" "t" rfl rfl rfl).1

/-- Helper for C5: every record kept by the extraction loop passes
`keepPost`. -/
theorem extractLoop_keep (limit : Option ℕ) (elems : List Post) (p : Post)
    (hp : p ∈ extractLoop limit elems) : keepPost p = true := by
  induction elems generalizing limit with
  | nil => simp [extractLoop] at hp
  | cons e rest ih =>
      by_cases h0 : limit = some 0
      · simp [extractLoop, h0] at hp
      · by_cases hk : keepPost e
        · simp [extractLoop, h0, hk] at hp
          rcases hp with hp | hp
          · rw [hp]; exact hk
          · exact ih _ hp
        · simp [extractLoop, h0, hk] at hp
          exact ih _ hp

/-- Counterexample to claim C5: a record with an empty caption and one
relative-URL media entry passes the keep filter, but post-processing then
removes the media entry (no `http` prefix), so the final list contains a
post with neither caption nor media. -/
theorem c5_postprocess_counterexample :
    (extractPosts id
        [{ caption := "",
           mediaFiles := [⟨"image", "/relative.png", "relative.png"⟩] }]
        none).map (fun p => (p.caption, p.mediaFiles)) = [("", [])] ∧
    ¬ (∀ p ∈ extractPosts id
        [{ caption := "",
           mediaFiles := [⟨"image", "/relative.png", "relative.png"⟩] }]
        none, p.caption ≠ "" ∨ p.mediaFiles ≠ []) := by
  constructor
  · decide
  · decide

/-- Claim C5 (amended): every record in the list assembled by the
extraction loop (before post-processing) has a non-empty caption or a
non-empty media list; post-processing may afterwards empty the caption
(cleaning) or the media list (non-`http` filtering), so the guarantee
holds for the loop output only. -/
theorem c5_keep_filter (limit : Option ℕ) (elems : List Post) (p : Post)
    (hp : p ∈ extractLoop limit elems) :
    p.caption ≠ "" ∨ p.mediaFiles ≠ [] := by
  have h := extractLoop_keep limit elems p hp
  by_cases hc : p.caption = ""
  · right
    intro hm
    simp [keepPost, hc, hm] at h
  · exact Or.inl hc

/-- Witness for `c5_keep_filter` at a concrete kept record. -/
theorem c5_keep_filter_witness :
    ({ caption := "hello" } : Post).caption ≠ "" ∨
      ({ caption := "hello" } : Post).mediaFiles ≠ [] :=
  c5_keep_filter none [{ caption := "hello" }] { caption := "hello" }
    (by decide)

/-- Helper for C10: the loop keeps at most `n` records. -/
theorem extractLoop_length_le (elems : List Post) (n : ℕ) :
    (extractLoop (some n) elems).length ≤ n := by
  induction elems generalizing n with
  | nil => simp [extractLoop]
  | cons e rest ih =>
      by_cases hn : n = 0
      · subst hn; simp [extractLoop]
      · by_cases hk : keepPost e
        · have := ih (n - 1)
          simp [extractLoop, hn, hk]
          omega
        · simp [extractLoop, hn, hk]
          exact ih n

/-- Helper for C10: with a null limit the loop is exactly the keep
filter. -/
theorem extractLoop_none (elems : List Post) :
    extractLoop none elems = elems.filter keepPost := by
  induction elems with
  | nil => rfl
  | cons e rest ih =>
      by_cases hk : keepPost e <;> simp [extractLoop, List.filter_cons, hk, ih]

/-- Claim C10: post extraction returns at most `n` posts under limit `n`;
with a null limit it returns every record passing the keep filter (no
cap); and the alternative-URL path caps extraction at
`min(maxPosts or 10, 10) ≤ 10` posts. -/
theorem c10_post_limit :
    (∀ (fd : String → String) (elems : List Post) (n : ℕ),
      (extractPosts fd elems (some n)).length ≤ n) ∧
    (∀ (fd : String → String) (elems : List Post),
      (extractPosts fd elems none).length = (elems.filter keepPost).length) ∧
    (∀ (fd : String → String) (elems : List Post) (maxPosts : Option ℕ),
      (extractPosts fd elems (some (altApproachLimit maxPosts))).length ≤
        min (jsOrNat maxPosts 10) 10) ∧
    (∀ maxPosts : Option ℕ, altApproachLimit maxPosts ≤ 10) := by
  refine ⟨?_, ?_, ?_, ?_⟩
  · intro fd elems n
    simpa [extractPosts, postProcessPosts] using extractLoop_length_le elems n
  · intro fd elems
    simp [extractPosts, postProcessPosts, extractLoop_none]
  · intro fd elems maxPosts
    have h := extractLoop_length_le elems (altApproachLimit maxPosts)
    simpa [extractPosts, postProcessPosts, altApproachLimit] using h
  · intro maxPosts
    simp [altApproachLimit]

/-- Helper for C9: the loop runs at most `remaining + 1` attempts. -/
theorem retryGo_attempts_le {ε α : Type} (op : ℕ → Except ε α) (a rem : ℕ) :
    (retryGo op a rem).attemptsMade ≤ rem + 1 := by
  induction rem generalizing a with
  | zero => cases h : op a <;> simp [retryGo, h]
  | succ r ih =>
      cases h : op a with
      | ok v => simp [retryGo, h]
      | error e =>
          have := ih (a + 1)
          simp [retryGo, h]
          omega

/-- Helper for C9: full trace of the loop when every attempt fails. -/
theorem retryGo_allfail {ε α : Type} (e : ℕ → ε) (a rem : ℕ) :
    retryGo (fun k => (Except.error (e k) : Except ε α)) a rem =
      ⟨Except.error (e (a + rem)),
        (List.range' a rem).map (fun k => 2 ^ k * 1000), rem, rem + 1⟩ := by
  induction rem generalizing a with
  | zero => simp [retryGo]
  | succ r ih =>
      have harg : a + 1 + r = a + (r + 1) := by omega
      simp [retryGo, ih (a + 1), List.range'_succ, harg]

/-- Counterexample to claim C9: with a budget of 1 the single attempt
fails and the error propagates, but no failure is reported to the rate
limiter — the final failed attempt reports nothing. -/
theorem c9_last_failure_unreported :
    (retryRun (fun _ => (Except.error "nav failed" : Except String Unit))
        1).result = Except.error "nav failed" ∧
    (retryRun (fun _ => (Except.error "nav failed" : Except String Unit))
        1).attemptsMade = 1 ∧
    (retryRun (fun _ => (Except.error "nav failed" : Except String Unit))
        1).failuresReported ≠ 1 := by
  refine ⟨rfl, rfl, by decide⟩

/-- Claim C9 (amended): with retry budget `r ≥ 1` the wrapper attempts the
operation at most `r` times; when every attempt fails it waits
`2^attempt × 1000` ms after each failed attempt except the last, reports a
failure to the rate limiter for each failed attempt except the last
(`r − 1` reports), and propagates the last error after the `r`-th
attempt. -/
theorem c9_retry_behavior (r : ℕ) (hr : 1 ≤ r) (e : ℕ → String) :
    (∀ op : ℕ → Except String Unit, (retryRun op r).attemptsMade ≤ r) ∧
    (retryRun (fun k => (Except.error (e k) : Except String Unit)) r).result
        = Except.error (e r) ∧
    (retryRun (fun k => (Except.error (e k) : Except String Unit)) r).delays
        = (List.range' 1 (r - 1)).map (fun k => 2 ^ k * 1000) ∧
    (retryRun (fun k => (Except.error (e k) : Except String Unit))
        r).failuresReported = r - 1 ∧
    (retryRun (fun k => (Except.error (e k) : Except String Unit))
        r).attemptsMade = r := by
  have hall := retryGo_allfail (α := Unit) e 1 (r - 1)
  have hr1 : 1 + (r - 1) = r := by omega
  rw [hr1] at hall
  refine ⟨?_, ?_, ?_, ?_, ?_⟩
  · intro op
    have := retryGo_attempts_le op 1 (r - 1)
    unfold retryRun
    omega
  · rw [retryRun, hall]
  · rw [retryRun, hall]
  · rw [retryRun, hall]
  · rw [retryRun, hall]
    simp
    omega

/-- Witness for `c9_retry_behavior` with budget 3 and an always-failing
operation. -/
theorem c9_retry_behavior_witness :
    (retryRun (fun _ => (Except.error "boom" : Except String Unit))
        3).failuresReported = 3 - 1 :=
  (c9_retry_behavior 3 (by norm_num) (fun _ => "boom")).2.2.2.1

/-- Helper for C8: subtracting `k` months shifts the total month index by
`k` and leaves every other field alone. -/
theorem toMillis_monthShift (dt : JSDate) (k : ℤ) :
    toMillis { dt with month := dt.month - k } =
      toMillis { year := 0, month := monthIndex dt - k, day := dt.day,
                 hour := dt.hour, minute := dt.minute, second := dt.second,
                 ms := dt.ms } := by
  have h : (12 : ℤ) * dt.year + (dt.month - k) =
      12 * 0 + (12 * dt.year + dt.month - k) := by ring
  simp [toMillis, monthIndex, h]

/-- Helper for C8: on a non-empty, `T`-free string with a relative match,
`formatDateInstant` resolves through `applyRelUnit`. -/
theorem formatDateInstant_rel (now : JSDate) (s : String) (n : ℕ) (u : Char)
    (hs : s ≠ "") (hT : s.toList.contains 'T' = false)
    (hm : relMatch s.toList = some (n, u)) :
    formatDateInstant now s = some (applyRelUnit now n u) := by
  simp only [formatDateInstant]
  rw [if_neg hs, hT, hm]
  simp

/-- Helper for C8: the hour branch subtracts exactly `n × 3600000` ms. -/
theorem applyRelUnit_hours (now : JSDate) (n : ℕ) :
    applyRelUnit now n 'h' = toMillis now - n * 3600000 := by
  simp [applyRelUnit, toMillis, monthIndex]
  ring

/-- Helper for C8: the day branch subtracts exactly `n × 86400000` ms. -/
theorem applyRelUnit_days (now : JSDate) (n : ℕ) :
    applyRelUnit now n 'd' = toMillis now - n * 86400000 := by
  simp [applyRelUnit, toMillis, monthIndex]
  ring

/-- Helper for C8: the week branch subtracts exactly `7n` days of ms. -/
theorem applyRelUnit_weeks (now : JSDate) (n : ℕ) :
    applyRelUnit now n 'w' = toMillis now - n * 604800000 := by
  simp [applyRelUnit, toMillis, monthIndex]
  ring

/-- Helper for C8: the month branch shifts the total month index. -/
theorem applyRelUnit_months (now : JSDate) (n : ℕ) :
    applyRelUnit now n 'm' =
      toMillis { year := 0, month := monthIndex now - n, day := now.day,
                 hour := now.hour, minute := now.minute, second := now.second,
                 ms := now.ms } := by
  simp only [applyRelUnit]
  norm_num
  exact toMillis_monthShift now n

/-- Claim C8: a relative label `n` followed by `h`, `d`, `w` or `m`
resolves, at reference instant `now`, to exactly `now` minus `n` hours,
`n` days, `n` weeks (`7n` days), or `n` calendar months (the date with
the total month index reduced by `n` and all other fields unchanged),
respectively; in particular `"2h"` resolves to `now − 2` hours. -/
theorem c8_relative_date_resolution (now : JSDate) (n : ℕ) (s : String)
    (hT : s.toList.contains 'T' = false) (hs : s ≠ "") :
    (relMatch s.toList = some (n, 'h') →
      formatDateInstant now s = some (toMillis now - n * 3600000)) ∧
    (relMatch s.toList = some (n, 'd') →
      formatDateInstant now s = some (toMillis now - n * 86400000)) ∧
    (relMatch s.toList = some (n, 'w') →
      formatDateInstant now s = some (toMillis now - n * 604800000)) ∧
    (relMatch s.toList = some (n, 'm') →
      formatDateInstant now s =
        some (toMillis { year := 0, month := monthIndex now - n,
                         day := now.day, hour := now.hour,
                         minute := now.minute, second := now.second,
                         ms := now.ms })) := by
  refine ⟨fun hm => ?_, fun hm => ?_, fun hm => ?_, fun hm => ?_⟩
  · rw [formatDateInstant_rel now s n 'h' hs hT hm, applyRelUnit_hours]
  · rw [formatDateInstant_rel now s n 'd' hs hT hm, applyRelUnit_days]
  · rw [formatDateInstant_rel now s n 'w' hs hT hm, applyRelUnit_weeks]
  · rw [formatDateInstant_rel now s n 'm' hs hT hm, applyRelUnit_months]

/-- Witness for `c8_relative_date_resolution`: `"2h"` at noon of
2024-05-15 resolves to exactly two hours earlier. -/
theorem c8_relative_date_witness :
    formatDateInstant ⟨2024, 4, 15, 12, 0, 0, 0⟩ "2h" =
      some (toMillis ⟨2024, 4, 15, 12, 0, 0, 0⟩ - 2 * 3600000) :=
  (c8_relative_date_resolution ⟨2024, 4, 15, 12, 0, 0, 0⟩ 2 "2h" (by decide)
    (by decide)).1 (by decide)

/-- Helper for C1: the alternative loop yields `[]` when every alternative
URL yields zero posts. -/
theorem firstNonEmptyPosts_all_empty (ls : List (List Post))
    (h : ∀ l ∈ ls, l = []) : firstNonEmptyPosts ls = [] := by
  induction ls with
  | nil => rfl
  | cons a rest ih =>
      have ha := h a (by simp)
      simp [firstNonEmptyPosts, ha]
      exact ih (fun l hl => h l (by simp [hl]))

/-- A concrete environment with the AI fallback disabled. -/
def c1EnvDisabled : ScrapeEnv :=
  { primary :=
      Except.error "LinkedIn blocked the request - retrying with different approach"
    altResults := [[], [], []]
    useFallback := false
    jigsaw := Except.error "not reached" }

/-- Counterexample to claim C1: with the AI fallback disabled (and the
primary extraction failing with a blocked signal, all alternatives empty),
`scrapeProfile` rethrows the error instead of returning the
minimal-fallback result the claim demands. -/
theorem c1_fallback_disabled_counterexample :
    (scrapeProfile c1EnvDisabled "https://www.linkedin.com/in/john-doe/"
        "2024-01-01T00:00:00.000Z").result =
      Except.error "LinkedIn blocked the request - retrying with different approach" ∧
    (scrapeProfile c1EnvDisabled "https://www.linkedin.com/in/john-doe/"
        "2024-01-01T00:00:00.000Z").finalMeta = none := by
  constructor
  · rfl
  · rfl

/-- Claim C1 (amended): if the primary extraction fails with a
blocked/999/timeout signal, every alternative URL yields zero posts, and
the AI fallback is **enabled** and itself fails, `scrapeProfile`
terminates normally with an empty post list and minimal-fallback
metadata whose name is derived from the URL slug; with the fallback
disabled it instead rethrows the original error (see the
counterexample). -/
theorem c1_minimal_fallback (env : ScrapeEnv) (url scrapedAt msg e : String)
    (hurl : isValidLinkedInProfileUrl url = true)
    (hp : env.primary = Except.error msg)
    (hsig : isBlockedSignal msg = true)
    (halt : ∀ l ∈ env.altResults, l = [])
    (hfb : env.useFallback = true)
    (hj : env.jigsaw = Except.error e) :
    (scrapeProfile env url scrapedAt).result = Except.ok [] ∧
    (scrapeProfile env url scrapedAt).finalMeta =
      some (createMinimalProfileData url e scrapedAt) ∧
    (createMinimalProfileData url e scrapedAt).scrapedVia =
      "minimal-fallback" ∧
    (createMinimalProfileData url e scrapedAt).name =
      displayNameFromSlug (deriveUsername url) := by
  have halt2 : alternativeScrapingApproach env = [] :=
    firstNonEmptyPosts_all_empty env.altResults halt
  refine ⟨?_, ?_, rfl, rfl⟩ <;>
    simp [scrapeProfile, hurl, hp, hsig, halt2, hfb,
      tryJigsawStackFallback, hj]

/-- A concrete environment with the AI fallback enabled but failing. -/
def c1EnvFallback : ScrapeEnv :=
  { primary := Except.error "Activity page blocked - trying alternative approach"
    altResults := [[], [], []]
    useFallback := true
    jigsaw := Except.error "JigsawStack fallback failed: missing API key" }

/-- Witness for `c1_minimal_fallback` at a concrete environment and URL:
the call returns `ok []` and the synthesized display name is
`"John Doe"`. -/
theorem c1_minimal_fallback_witness :
    (scrapeProfile c1EnvFallback "https://www.linkedin.com/in/john-doe/"
        "2024-01-01T00:00:00.000Z").result = Except.ok [] ∧
    (createMinimalProfileData "https://www.linkedin.com/in/john-doe/"
        "JigsawStack fallback failed: missing API key"
        "2024-01-01T00:00:00.000Z").name = "John Doe" := by
  constructor
  · exact (c1_minimal_fallback c1EnvFallback
      "https://www.linkedin.com/in/john-doe/" "2024-01-01T00:00:00.000Z"
      "Activity page blocked - trying alternative approach"
      "JigsawStack fallback failed: missing API key"
      (by decide) rfl (by decide) (by decide) rfl rfl).1
  · decide
